import Mathlib

/-!
# Verification of the search/pagination controller of the book-list app

Shallow embedding of the `BookFinder` component in `src/component/Home.jsx`:
the component state (its `useState` hooks), the `performSearch` routine split
at its `await fetch` point into a synchronous dispatch prefix and a response
continuation, the `loadMoreBooks` infinite-scroll entry point, the
`searchQuery` effect, and the favorites operations.  Theorems below settle
the spec's claims about pagination, error handling, supersession and
favorites against these definitions.
-/

/-- A bibliographic record.  The controller only ever inspects the `key`
field; every other field of a record is passed through to presentation
unchanged, so only `key` is modelled. -/
structure Record where
  key : String
  deriving DecidableEq, Repr

/-- The optional search filters (the `filters` state in `Home.jsx`).  An
empty string means the filter is unset, matching the JS falsy check used
when the request URL is built. -/
structure Filters where
  language : String
  publishYear : String
  deriving DecidableEq, Repr

/-- The component state of `BookFinder`: the `useState` hooks of
`Home.jsx` that the search/pagination controller reads and writes. -/
structure BookFinderState where
  searchQuery : String
  searchType : String
  books : List Record
  loading : Bool
  loadingMore : Bool
  error : String
  favorites : List Record
  filters : Filters
  currentPage : Nat
  hasMore : Bool
  totalBooks : Nat
  deriving DecidableEq, Repr

/-- The initial component state, from the `useState` initialisers. -/
def initState : BookFinderState :=
  { searchQuery := ""
    searchType := "title"
    books := []
    loading := false
    loadingMore := false
    error := ""
    favorites := []
    filters := { language := "", publishYear := "" }
    currentPage := 0
    hasMore := false
    totalBooks := 0 }

/-- The fixed page size (`const limit = 20` in `performSearch`). -/
def pageLimit : Nat := 20

/-- The parameters of one outbound catalog request, as assembled into the
request URL by `performSearch` (`limit` is always `pageLimit` and the
offset is `page * pageLimit`, so recording `page` suffices). -/
structure FetchRequest where
  query : String
  searchType : String
  filters : Filters
  page : Nat
  deriving DecidableEq, Repr

/-- The outcome of one catalog fetch.  `failure` covers a transport error
and a non-ok HTTP status (both reach the `catch` block: the code throws on
`!response.ok`).  `success` carries the parsed JSON body: `docs` is `none`
when the body has no `docs` field (the JS falsy check `if (data.docs)`;
an empty array is truthy, hence `some []`), and `numFound` is `none` when
the body lacks that field. -/
inductive FetchResult where
  | failure
  | success (docs : Option (List Record)) (numFound : Option Nat)
  deriving DecidableEq, Repr

/-- The validation message set by `performSearch` on an empty query. -/
def validationMsg : String := "Please enter a search term"

/-- The message set by the `catch` block of `performSearch`. -/
def networkErrorMsg : String :=
  "Failed to search books. Please check your internet connection and try again."

/-- The empty-result message of `performSearch`. -/
def noResultsMsg : String := "No books found matching your search criteria"

/-- Model of the JavaScript `String.prototype.trim()` used by
`performSearch`: strip whitespace from both ends of the string. -/
def jsTrim (q : String) : String :=
  ⟨((q.data.dropWhile Char.isWhitespace).reverse.dropWhile
      Char.isWhitespace).reverse⟩

/-- The synchronous prefix of `performSearch(query, page, isNewSearch)` up
to the `await fetch` call: the empty-query validation (`!query.trim()`),
the loading flags, the clearing of `books`/`currentPage` for a new
session, the clearing of `error`, and the dispatched request (`none` when
no request is sent). -/
def performSearchStart (query : String) (page : Nat) (isNewSearch : Bool)
    (s : BookFinderState) : BookFinderState × Option FetchRequest :=
  if jsTrim query = "" then
    ({ s with error := validationMsg }, none)
  else
    let s :=
      if isNewSearch then
        { s with loading := true, books := [], currentPage := 0 }
      else
        { s with loadingMore := true }
    let s := { s with error := "" }
    (s, some { query := query
               searchType := s.searchType
               filters := s.filters
               page := page })

/-- The continuation of `performSearch` from the point its `fetch`
settles: the remainder of the `try` block, the `catch` block, and the
`finally` block.  It is applied to the component state current at arrival
time (React state setters read the latest state, and the functional update
`setBooks(prev => ...)` appends to the latest `books`).  The source
performs no query-currency check anywhere in this continuation. -/
def performSearchResolve (page : Nat) (isNewSearch : Bool)
    (res : FetchResult) (s : BookFinderState) : BookFinderState :=
  let s :=
    match res with
    | .failure => { s with error := networkErrorMsg }
    | .success docs numFound =>
      match docs with
      | some ds =>
        let s := { s with totalBooks := numFound.getD 0 }
        let s :=
          if isNewSearch then { s with books := ds }
          else { s with books := s.books ++ ds }
        let s := { s with
          currentPage := page
          hasMore := (ds.length == pageLimit)
            && decide ((page + 1) * pageLimit < numFound.getD 0) }
        if ds.length == 0 && isNewSearch then { s with error := noResultsMsg }
        else s
      | none =>
        if isNewSearch then { s with error := noResultsMsg } else s
  { s with loading := false, loadingMore := false }

/-- `loadMoreBooks` from `Home.jsx`: the continuation entry point invoked
by the intersection observer; guarded by `hasMore && !loadingMore &&
!loading` and dispatching `performSearch(searchQuery, currentPage + 1,
false)` when the guard passes. -/
def loadMoreBooks (s : BookFinderState) : BookFinderState × Option FetchRequest :=
  if s.hasMore && !s.loadingMore && !s.loading then
    performSearchStart s.searchQuery (s.currentPage + 1) false s
  else
    (s, none)

/-- `setSearchQuery(text)` followed by the `searchQuery` effect in
`Home.jsx`: non-empty text schedules a debounced search for that text
(returned as `some text`, cancelling any previously scheduled one); empty
text resets `books`, `hasMore` and `totalBooks` and schedules nothing. -/
def setQueryText (text : String) (s : BookFinderState) :
    BookFinderState × Option String :=
  let s := { s with searchQuery := text }
  if text = "" then
    ({ s with books := [], hasMore := false, totalBooks := 0 }, none)
  else
    (s, some text)

/-- `toggleFavorite(book)` from `Home.jsx`, acting on the favorites list:
remove every entry with the book's key when present, append the book
otherwise. -/
def toggleFavorite (book : Record) (favorites : List Record) : List Record :=
  let isAlreadyFavorite := favorites.any fun fav => fav.key == book.key
  if isAlreadyFavorite then
    favorites.filter fun fav => fav.key != book.key
  else
    favorites ++ [book]

/-- `isFavorite(book)` from `Home.jsx`. -/
def isFavorite (book : Record) (favorites : List Record) : Bool :=
  favorites.any fun fav => fav.key == book.key

/-- `toggleFavorite` as a transition on the whole component state: the
source calls only `setFavorites` and reads only `favorites`. -/
def toggleFavoriteState (book : Record) (s : BookFinderState) : BookFinderState :=
  { s with favorites := toggleFavorite book s.favorites }

/-- The spec's `SearchSession.status` (Idle / Loading / LoadingMore /
Error), derived from the code's `loading` / `loadingMore` / `error`
state: `Loading` while a new-session fetch is in flight, `LoadingMore`
while a continuation is in flight, `Error` when an error message is
displayed, `Idle` otherwise. -/
inductive Status where
  | Idle
  | Loading
  | LoadingMore
  | Error
  deriving DecidableEq, Repr

/-- Derivation of the spec-level status from the component state. -/
def sessionStatus (s : BookFinderState) : Status :=
  if s.loading then .Loading
  else if s.loadingMore then .LoadingMore
  else if s.error = "" then .Idle
  else .Error

/-- One new-session search against the query currently in the state:
dispatch page 0 with `isNewSearch = true` and apply a successful response
carrying records `p.1` and `numFound` field `p.2`. -/
def newSessionRun (p : List Record × Option Nat) (s : BookFinderState) :
    BookFinderState :=
  performSearchResolve 0 true (.success (some p.1) p.2)
    (performSearchStart s.searchQuery 0 true s).1

/-- One successful continuation: dispatch page `currentPage + 1` with
`isNewSearch = false` (the call `loadMoreBooks` makes) and apply a
successful response. -/
def continueRun (p : List Record × Option Nat) (s : BookFinderState) :
    BookFinderState :=
  performSearchResolve (s.currentPage + 1) false (.success (some p.1) p.2)
    (performSearchStart s.searchQuery (s.currentPage + 1) false s).1

/-- A whole session: one new-session page followed by a list of
successful continuations, applied in order. -/
def sessionRun (p0 : List Record × Option Nat)
    (conts : List (List Record × Option Nat)) (s : BookFinderState) :
    BookFinderState :=
  conts.foldl (fun st p => continueRun p st) (newSessionRun p0 s)

/-! ### Concrete traces used by the scenario claims -/

/-- The component state ready to dispatch a second new-session search:
the user typed "a", the debounced search for "a" was dispatched, the user
then typed "b" and the debounced search for "b" was dispatched — both
fetches are now in flight, the current query is "b". -/
def raceDispatchState : BookFinderState :=
  (performSearchStart "b" 0 true
    (setQueryText "b"
      (performSearchStart "a" 0 true (setQueryText "a" initState).1).1).1).1

/-- `raceDispatchState` after the response for the current query "b"
(one record keyed "B") arrives. -/
def raceAfterSecondResponse : BookFinderState :=
  performSearchResolve 0 true (.success (some [Record.mk "B"]) (some 1))
    raceDispatchState

/-- `raceAfterSecondResponse` after the late response of the superseded
query "a" (one record keyed "A") arrives. -/
def raceAfterStaleResponse : BookFinderState :=
  performSearchResolve 0 true (.success (some [Record.mk "A"]) (some 1))
    raceAfterSecondResponse

/-- A page of `n` records, for the "dune" scenario. -/
def dunePage (n : Nat) : List Record := List.replicate n (Record.mk "d")

/-- The "dune" scenario: the state after the debounced new-session search
for "dune" resolves with a full page of 20 records and `numFound = 45`. -/
def duneAfterPage0 : BookFinderState :=
  performSearchResolve 0 true (.success (some (dunePage 20)) (some 45))
    (performSearchStart "dune" 0 true (setQueryText "dune" initState).1).1

/-- The "dune" scenario after the first continuation (page 1, 20 records)
resolves. -/
def duneAfterPage1 : BookFinderState :=
  performSearchResolve 1 false (.success (some (dunePage 20)) (some 45))
    (loadMoreBooks duneAfterPage0).1

/-- The "dune" scenario after the second continuation (page 2, 5 records)
resolves. -/
def duneAfterPage2 : BookFinderState :=
  performSearchResolve 2 false (.success (some (dunePage 5)) (some 45))
    (loadMoreBooks duneAfterPage1).1

/-- The "dune" scenario where the first continuation fails instead: the
accumulated page 0 is still present, `hasMore` is still true, and the
network error message is displayed. -/
def duneContFailState : BookFinderState :=
  performSearchResolve 1 false .failure (loadMoreBooks duneAfterPage0).1

/-- A state with one accumulated record and another page available, used
to witness the failure-frame claim. -/
def c6State : BookFinderState :=
  { initState with books := [Record.mk "k"], hasMore := true }

/-! ## Helper lemmas: field-level characterizations of the transitions -/

theorem resolve_success_currentPage (page : Nat) (isNewSearch : Bool)
    (ds : List Record) (numFound : Option Nat) (s : BookFinderState) :
    (performSearchResolve page isNewSearch (.success (some ds) numFound) s).currentPage
      = page := by
  simp only [performSearchResolve]
  cases isNewSearch <;> split <;> rfl

theorem resolve_success_totalBooks (page : Nat) (isNewSearch : Bool)
    (ds : List Record) (numFound : Option Nat) (s : BookFinderState) :
    (performSearchResolve page isNewSearch (.success (some ds) numFound) s).totalBooks
      = numFound.getD 0 := by
  simp only [performSearchResolve]
  cases isNewSearch <;> split <;> rfl

theorem resolve_success_hasMore (page : Nat) (isNewSearch : Bool)
    (ds : List Record) (numFound : Option Nat) (s : BookFinderState) :
    (performSearchResolve page isNewSearch (.success (some ds) numFound) s).hasMore
      = ((ds.length == pageLimit)
          && decide ((page + 1) * pageLimit < numFound.getD 0)) := by
  simp only [performSearchResolve]
  cases isNewSearch <;> split <;> rfl

theorem resolve_success_books_new (page : Nat)
    (ds : List Record) (numFound : Option Nat) (s : BookFinderState) :
    (performSearchResolve page true (.success (some ds) numFound) s).books = ds := by
  simp only [performSearchResolve]
  split <;> rfl

theorem resolve_success_books_cont (page : Nat)
    (ds : List Record) (numFound : Option Nat) (s : BookFinderState) :
    (performSearchResolve page false (.success (some ds) numFound) s).books
      = s.books ++ ds := by
  simp only [performSearchResolve]
  split <;> rfl

theorem resolve_success_searchQuery (page : Nat) (isNewSearch : Bool)
    (ds : List Record) (numFound : Option Nat) (s : BookFinderState) :
    (performSearchResolve page isNewSearch (.success (some ds) numFound) s).searchQuery
      = s.searchQuery := by
  simp only [performSearchResolve]
  cases isNewSearch <;> split <;> rfl

theorem start_nonempty_cont (query : String) (page : Nat) (s : BookFinderState)
    (h : ¬ jsTrim query = "") :
    performSearchStart query page false s
      = ({ s with loadingMore := true, error := "" },
         some { query := query, searchType := s.searchType,
                filters := s.filters, page := page }) := by
  simp [performSearchStart, h]

theorem start_nonempty_new (query : String) (page : Nat) (s : BookFinderState)
    (h : ¬ jsTrim query = "") :
    performSearchStart query page true s
      = ({ s with loading := true, books := [], currentPage := 0, error := "" },
         some { query := query, searchType := s.searchType,
                filters := s.filters, page := page }) := by
  simp [performSearchStart, h]

/-- A state with no fetch in flight and a non-empty error message has
spec-level status `Error`. -/
theorem sessionStatus_of_error (s : BookFinderState) (h1 : s.loading = false)
    (h2 : s.loadingMore = false) (h3 : ¬ s.error = "") :
    sessionStatus s = .Error := by
  simp [sessionStatus, h1, h2, h3]

/-- Filtering out a key removes it from favorites membership. -/
theorem isFavorite_filter_self (b : Record) (favs : List Record) :
    isFavorite b (favs.filter fun fav => fav.key != b.key) = false := by
  simp [isFavorite, List.any_eq_true, List.mem_filter]

/-- Appending a record makes it a favorite. -/
theorem isFavorite_append_self (b : Record) (favs : List Record) :
    isFavorite b (favs ++ [b]) = true := by
  simp [isFavorite]

/-- `toggleFavorite` on a present key filters that key out. -/
theorem toggleFavorite_of_mem (b : Record) (favs : List Record)
    (h : isFavorite b favs = true) :
    toggleFavorite b favs = favs.filter fun fav => fav.key != b.key := by
  unfold isFavorite at h
  simp [toggleFavorite, h]

/-- `toggleFavorite` on an absent key appends the record. -/
theorem toggleFavorite_of_not_mem (b : Record) (favs : List Record)
    (h : isFavorite b favs = false) :
    toggleFavorite b favs = favs ++ [b] := by
  unfold isFavorite at h
  simp [toggleFavorite, h]

/-- Double toggle restores membership of the toggled key. -/
theorem toggleFavorite_membership (b : Record) (favs : List Record) :
    isFavorite b (toggleFavorite b (toggleFavorite b favs)) = isFavorite b favs := by
  cases h : isFavorite b favs
  · rw [toggleFavorite_of_not_mem b favs h,
      toggleFavorite_of_mem b (favs ++ [b]) (isFavorite_append_self b favs),
      isFavorite_filter_self]
  · rw [toggleFavorite_of_mem b favs h,
      toggleFavorite_of_not_mem b _ (isFavorite_filter_self b favs),
      isFavorite_append_self]

/-- A successful continuation appends its records and keeps the query. -/
theorem continueRun_books (p : List Record × Option Nat) (st : BookFinderState)
    (h : ¬ jsTrim st.searchQuery = "") :
    (continueRun p st).books = st.books ++ p.1
    ∧ (continueRun p st).searchQuery = st.searchQuery := by
  unfold continueRun
  rw [start_nonempty_cont st.searchQuery (st.currentPage + 1) st h]
  exact ⟨resolve_success_books_cont .., resolve_success_searchQuery ..⟩

/-- A successful new-session search replaces the records with its page
and keeps the query. -/
theorem newSessionRun_books (p : List Record × Option Nat) (st : BookFinderState)
    (h : ¬ jsTrim st.searchQuery = "") :
    (newSessionRun p st).books = p.1
    ∧ (newSessionRun p st).searchQuery = st.searchQuery := by
  unfold newSessionRun
  rw [start_nonempty_new st.searchQuery 0 st h]
  exact ⟨resolve_success_books_new .., resolve_success_searchQuery ..⟩

/-- Folding successful continuations appends the pages in order. -/
theorem sessionFold_books (conts : List (List Record × Option Nat))
    (st : BookFinderState) (h : ¬ jsTrim st.searchQuery = "") :
    (conts.foldl (fun s p => continueRun p s) st).books
        = st.books ++ conts.flatMap Prod.fst
    ∧ (conts.foldl (fun s p => continueRun p s) st).searchQuery
        = st.searchQuery := by
  induction conts generalizing st with
  | nil => simp
  | cons p ps ih =>
    have hb := continueRun_books p st h
    have hq : ¬ jsTrim (continueRun p st).searchQuery = "" := by
      rw [hb.2]; exact h
    have hps := ih (continueRun p st) hq
    simp only [List.foldl_cons, List.flatMap_cons]
    refine ⟨?_, hps.2.trans hb.2⟩
    rw [hps.1, hb.1, List.append_assoc]

/-! ## The claims -/

/-- Claim C1, counterexample: the supersession rule does not hold.  Two
new-session searches for the different texts "a" and "b" are dispatched
before the first resolves; when the response belonging to the superseded
query "a" arrives last, the current query is "b", yet the controller does
not discard it: it overwrites `accumulatedRecords` (and so the final
records belong to the stale query, not the latest one). -/
theorem staleResponseMutatesBooks :
    raceAfterSecondResponse.searchQuery = "b"
    ∧ raceAfterSecondResponse.books = [Record.mk "B"]
    ∧ raceAfterStaleResponse.books = [Record.mk "A"]
    ∧ ¬ raceAfterStaleResponse = raceAfterSecondResponse := by
  decide

/-- Claim C1, amended: the controller performs no query-currency check;
every response is applied to the state current at its arrival, and a
new-session response overwrites `accumulatedRecords` with its own records
whatever the state — so of two new-session searches issued before the
first resolves, the response that arrives last (not the one whose query
is current) determines `accumulatedRecords`. -/
theorem lastResponseWins (page : Nat) (ds : List Record)
    (numFound : Option Nat) (s : BookFinderState) :
    (performSearchResolve page true (.success (some ds) numFound) s).books = ds :=
  resolve_success_books_new page ds numFound s

/-- Claim C2: after every successful page fetch, `hasMore` is true only
if the fetched page held exactly `pageLimit` (20) records and
`(lastPageIndex + 1) * pageSize < totalMatches` in the resulting state;
and a new-session search on a non-empty query answered by a single page
of fewer than 20 records yields `hasMore = false`. -/
theorem hasMoreCharacterization (query : String) (page : Nat)
    (isNewSearch : Bool) (ds : List Record) (numFound : Option Nat)
    (s : BookFinderState) :
    ((performSearchResolve page isNewSearch (.success (some ds) numFound) s).hasMore
        = true →
      ds.length = pageLimit
      ∧ ((performSearchResolve page isNewSearch
            (.success (some ds) numFound) s).currentPage + 1) * pageLimit
          < (performSearchResolve page isNewSearch
              (.success (some ds) numFound) s).totalBooks)
    ∧ (¬ jsTrim query = "" → ds.length < pageLimit →
        (performSearchResolve 0 true (.success (some ds) numFound)
            (performSearchStart query 0 true s).1).hasMore = false) := by
  constructor
  · intro h
    rw [resolve_success_hasMore, Bool.and_eq_true, beq_iff_eq,
      decide_eq_true_iff] at h
    rw [resolve_success_currentPage, resolve_success_totalBooks]
    exact h
  · intro hq hlen
    rw [resolve_success_hasMore]
    simp [Nat.ne_of_lt hlen]

/-- Witness for claim C2: a full page of 20 with `numFound = 45` has
`hasMore` true, so the only-if direction applies; and a 1-record
new-session page yields `hasMore = false`. -/
theorem hasMoreCharacterizationWitness :
    ((List.replicate 20 (Record.mk "r")).length = pageLimit
      ∧ ((performSearchResolve 0 true
            (.success (some (List.replicate 20 (Record.mk "r"))) (some 45))
            initState).currentPage + 1) * pageLimit
          < (performSearchResolve 0 true
              (.success (some (List.replicate 20 (Record.mk "r"))) (some 45))
              initState).totalBooks)
    ∧ (performSearchResolve 0 true (.success (some [Record.mk "r"]) (some 45))
          (performSearchStart "dune" 0 true initState).1).hasMore = false :=
  ⟨(hasMoreCharacterization "dune" 0 true (List.replicate 20 (Record.mk "r"))
      (some 45) initState).1 (by decide),
   (hasMoreCharacterization "dune" 0 true [Record.mk "r"] (some 45)
      initState).2 (by decide) (by decide)⟩

/-- Claim C3: a session made of one new-session page and a list of
successful continuations accumulates exactly the pages' records in page
order, its length is the sum of the page lengths, and if the upstream
pages carry no duplicate key overall then neither does
`accumulatedRecords`. -/
theorem sessionAccumulation (p0 : List Record × Option Nat)
    (conts : List (List Record × Option Nat)) (s : BookFinderState)
    (h : ¬ jsTrim s.searchQuery = "") :
    (sessionRun p0 conts s).books = p0.1 ++ conts.flatMap Prod.fst
    ∧ (sessionRun p0 conts s).books.length
        = p0.1.length + (conts.map fun p => p.1.length).sum
    ∧ (((p0.1 ++ conts.flatMap Prod.fst).map Record.key).Nodup →
        ((sessionRun p0 conts s).books.map Record.key).Nodup) := by
  have h0 := newSessionRun_books p0 s h
  have hq : ¬ jsTrim (newSessionRun p0 s).searchQuery = "" := by
    rw [h0.2]; exact h
  have hfold := sessionFold_books conts (newSessionRun p0 s) hq
  have hbooks : (sessionRun p0 conts s).books
      = p0.1 ++ conts.flatMap Prod.fst := by
    unfold sessionRun
    rw [hfold.1, h0.1]
  refine ⟨hbooks, ?_, ?_⟩
  · rw [hbooks]
    simp only [List.length_append, List.length_flatMap]
    rfl
  · intro hnodup
    rw [hbooks]
    exact hnodup

/-- Witness for claim C3: a session for "dune" of a 1-record page and one
2-record continuation accumulates the three records in order and without
duplicate keys. -/
theorem sessionAccumulationWitness :
    (sessionRun ([Record.mk "a"], some 3)
        [([Record.mk "b", Record.mk "c"], some 3)]
        { initState with searchQuery := "dune" }).books
      = [Record.mk "a", Record.mk "b", Record.mk "c"]
    ∧ ((sessionRun ([Record.mk "a"], some 3)
        [([Record.mk "b", Record.mk "c"], some 3)]
        { initState with searchQuery := "dune" }).books.map Record.key).Nodup :=
  ⟨(sessionAccumulation ([Record.mk "a"], some 3)
      [([Record.mk "b", Record.mk "c"], some 3)]
      { initState with searchQuery := "dune" } (by decide)).1.trans (by decide),
   (sessionAccumulation ([Record.mk "a"], some 3)
      [([Record.mk "b", Record.mk "c"], some 3)]
      { initState with searchQuery := "dune" } (by decide)).2.2 (by decide)⟩

/-- Claim C4: the "dune" scenario.  Page 0 returns 20 records with
`numFound = 45`, so `hasMore` is true and `lastPageIndex` is 0; the first
continuation is dispatched and returns 20 more records, giving 40
accumulated records with `hasMore` still true; the second continuation
returns 5 records, giving 45 accumulated records with `hasMore` false. -/
theorem duneScenarioTrace :
    (duneAfterPage0.hasMore = true ∧ duneAfterPage0.currentPage = 0
      ∧ duneAfterPage0.books.length = 20)
    ∧ ((loadMoreBooks duneAfterPage0).2.isSome = true
      ∧ duneAfterPage1.books.length = 40 ∧ duneAfterPage1.hasMore = true)
    ∧ ((loadMoreBooks duneAfterPage1).2.isSome = true
      ∧ duneAfterPage2.books.length = 45 ∧ duneAfterPage2.hasMore = false) := by
  decide

/-- Claim C5: invoking the search with an empty (or whitespace-only)
query text sets the validation error message, dispatches no request, and
leaves the accumulated records — indeed the whole rest of the state —
unchanged. -/
theorem emptyQueryValidation (query : String) (page : Nat)
    (isNewSearch : Bool) (s : BookFinderState) (h : jsTrim query = "") :
    performSearchStart query page isNewSearch s
        = ({ s with error := validationMsg }, none)
    ∧ (performSearchStart query page isNewSearch s).1.books = s.books := by
  simp [performSearchStart, h]

/-- Witness for claim C5 at the whitespace-only query " " and a state
with one accumulated record. -/
theorem emptyQueryValidationWitness :
    performSearchStart " " 3 true { initState with books := [Record.mk "k"] }
        = ({ { initState with books := [Record.mk "k"] } with
              error := validationMsg }, none)
    ∧ (performSearchStart " " 3 true
        { initState with books := [Record.mk "k"] }).1.books = [Record.mk "k"] :=
  emptyQueryValidation " " 3 true { initState with books := [Record.mk "k"] }
    (by decide)

/-- Claim C6: a failing fetch surfaces the network error message and
`Error` status; a continuation failure preserves the previously
accumulated records, while a new-session failure clears them. -/
theorem fetchFailureFrame (query : String) (page : Nat) (s : BookFinderState)
    (h : ¬ jsTrim query = "") :
    ((performSearchResolve page false .failure
        (performSearchStart query page false s).1).books = s.books
      ∧ (performSearchResolve page false .failure
          (performSearchStart query page false s).1).error = networkErrorMsg
      ∧ sessionStatus (performSearchResolve page false .failure
          (performSearchStart query page false s).1) = .Error)
    ∧ ((performSearchResolve 0 true .failure
          (performSearchStart query 0 true s).1).books = []
      ∧ (performSearchResolve 0 true .failure
          (performSearchStart query 0 true s).1).error = networkErrorMsg
      ∧ sessionStatus (performSearchResolve 0 true .failure
          (performSearchStart query 0 true s).1) = .Error) := by
  rw [start_nonempty_cont query page s h, start_nonempty_new query 0 s h]
  refine ⟨⟨rfl, rfl, ?_⟩, rfl, rfl, ?_⟩ <;>
    exact sessionStatus_of_error _ rfl rfl (by show ¬ networkErrorMsg = ""; decide)

/-- Witness for claim C6 at query "a" and a state holding one record. -/
theorem fetchFailureFrameWitness :
    ((performSearchResolve 1 false .failure
        (performSearchStart "a" 1 false c6State).1).books = c6State.books
      ∧ (performSearchResolve 1 false .failure
          (performSearchStart "a" 1 false c6State).1).error = networkErrorMsg
      ∧ sessionStatus (performSearchResolve 1 false .failure
          (performSearchStart "a" 1 false c6State).1) = .Error)
    ∧ ((performSearchResolve 0 true .failure
          (performSearchStart "a" 0 true c6State).1).books = []
      ∧ (performSearchResolve 0 true .failure
          (performSearchStart "a" 0 true c6State).1).error = networkErrorMsg
      ∧ sessionStatus (performSearchResolve 0 true .failure
          (performSearchStart "a" 0 true c6State).1) = .Error) :=
  fetchFailureFrame "a" 1 c6State (by decide)

/-- Claim C7: setting the query text to the empty string resets the
session — empty `accumulatedRecords`, `hasMore` false, zero
`totalMatches` — and schedules no request. -/
theorem setQueryTextEmptyResets (s : BookFinderState) :
    (setQueryText "" s).1.books = [] ∧ (setQueryText "" s).1.hasMore = false
    ∧ (setQueryText "" s).1.totalBooks = 0 ∧ (setQueryText "" s).2 = none := by
  simp [setQueryText]

/-- Claim C8, counterexample: `loadMoreBooks` is not a no-op in every
state whose status is not Idle.  After a failed continuation of the
"dune" session the status is `Error` and no fetch is in flight, yet
`loadMoreBooks` dispatches a request and mutates the state. -/
theorem loadMoreFiresInErrorStatus :
    sessionStatus duneContFailState = Status.Error
    ∧ duneContFailState.hasMore = true
    ∧ (loadMoreBooks duneContFailState).2.isSome = true
    ∧ ¬ (loadMoreBooks duneContFailState).1 = duneContFailState := by
  decide

/-- Claim C8, amended: `loadMoreBooks` is a no-op (no request dispatched,
no state mutated) in every state where `hasMore` is false or a fetch is
in flight (`loading` or `loadingMore` set) — but not in the `Error`
status; and whenever it does dispatch a continuation it sets
`loadingMore`, so repeated firings of the near-end trigger while that
continuation is in flight are no-ops and no two continuation fetches are
ever concurrently in flight. -/
theorem loadMoreGuard (s : BookFinderState) :
    (s.hasMore = false ∨ s.loading = true ∨ s.loadingMore = true →
        loadMoreBooks s = (s, none))
    ∧ (∀ s2 r, loadMoreBooks s = (s2, some r) →
        s2.loadingMore = true ∧ loadMoreBooks s2 = (s2, none)) := by
  constructor
  · intro h
    unfold loadMoreBooks
    rcases h with h | h | h <;> simp [h]
  · intro s2 r hdisp
    unfold loadMoreBooks at hdisp
    by_cases hg : (s.hasMore && !s.loadingMore && !s.loading) = true
    · rw [if_pos hg] at hdisp
      unfold performSearchStart at hdisp
      by_cases ht : jsTrim s.searchQuery = ""
      · rw [if_pos ht] at hdisp
        exact absurd (congrArg Prod.snd hdisp) (by simp)
      · rw [if_neg ht] at hdisp
        have hs2 : s2 = { s with loadingMore := true, error := "" } :=
          (congrArg Prod.fst hdisp).symm
        constructor
        · rw [hs2]
        · rw [hs2]
          unfold loadMoreBooks
          simp
    · rw [if_neg hg] at hdisp
      exact absurd (congrArg Prod.snd hdisp) (by simp)

/-- Witness for the amended claim C8: a state with a fetch in flight is
left untouched, and after the "dune" page-0 state dispatches a
continuation, a second trigger firing is a no-op. -/
theorem loadMoreGuardWitness :
    loadMoreBooks { initState with hasMore := true, loading := true }
        = ({ initState with hasMore := true, loading := true }, none)
    ∧ ((loadMoreBooks duneAfterPage0).1.loadingMore = true
      ∧ loadMoreBooks (loadMoreBooks duneAfterPage0).1
          = ((loadMoreBooks duneAfterPage0).1, none)) :=
  ⟨(loadMoreGuard { initState with hasMore := true, loading := true }).1
      (Or.inr (Or.inl rfl)),
   (loadMoreGuard duneAfterPage0).2 (loadMoreBooks duneAfterPage0).1
     { query := "dune", searchType := "title",
       filters := { language := "", publishYear := "" }, page := 1 }
     (by decide)⟩

/-- Claim C9: toggling a record twice restores its favorites membership
(`isFavorite` is unchanged), and the favorites operations neither read
nor write any search-session state — a single toggle leaves every
non-favorites field of the component state unchanged. -/
theorem toggleFavoriteDoubleToggle (b : Record) (s : BookFinderState) :
    isFavorite b (toggleFavoriteState b (toggleFavoriteState b s)).favorites
        = isFavorite b s.favorites
    ∧ (toggleFavoriteState b s).books = s.books
    ∧ (toggleFavoriteState b s).searchQuery = s.searchQuery
    ∧ (toggleFavoriteState b s).searchType = s.searchType
    ∧ (toggleFavoriteState b s).loading = s.loading
    ∧ (toggleFavoriteState b s).loadingMore = s.loadingMore
    ∧ (toggleFavoriteState b s).error = s.error
    ∧ (toggleFavoriteState b s).filters = s.filters
    ∧ (toggleFavoriteState b s).currentPage = s.currentPage
    ∧ (toggleFavoriteState b s).hasMore = s.hasMore
    ∧ (toggleFavoriteState b s).totalBooks = s.totalBooks :=
  ⟨toggleFavorite_membership b s.favorites, rfl, rfl, rfl, rfl, rfl, rfl,
    rfl, rfl, rfl, rfl⟩

/-- Claim C10: a successful response whose body has a `docs` array but no
`numFound` field sets `totalMatches` to 0 and `hasMore` to false — also
when the page holds a full 20 records. -/
theorem missingNumFoundZero (page : Nat) (isNewSearch : Bool)
    (ds : List Record) (s : BookFinderState) :
    (performSearchResolve page isNewSearch (.success (some ds) none) s).totalBooks = 0
    ∧ (performSearchResolve page isNewSearch (.success (some ds) none) s).hasMore
        = false := by
  simp [resolve_success_totalBooks, resolve_success_hasMore]
